import Mathlib

/-!
Verification of the incentive-calculator rules from `incentive_app.py`
(Gujarat Terce Laboratories incentive calculators, FY 2025-26).

Each Streamlit calculator's computational core is a pure function from
scalar inputs to a result record.  We embed those cores here: Python
floats are modelled as rationals (all constants in the source are exact
decimals), unit/month/team counts as naturals, and the "no result yet"
display paths (unselected product/period, zero PCPM) as `Option`.
-/

namespace IncentiveApp

/-- The productivity groups "Group A" .. "Group D" from the source.
An empty group string in the source is `none` here. -/
inductive Group
  | A | B | C | D
deriving DecidableEq, Repr

/-- The group classification appearing identically in `mr_annual_incentive`,
`mr_volume_incentive`, `mr_brand_incentive` and `mr_quarterly_brand_incentive`:
`group = ""` unless `pcpm` is truthy, then `pcpm < 1.5 → A`, `< 2.5 → B`,
`< 4.0 → C`, else `D`. -/
def classifyGroup (pcpm : ℚ) : Option Group :=
  if pcpm = 0 then none
  else if pcpm < 3/2 then some Group.A
  else if pcpm < 5/2 then some Group.B
  else if pcpm < 4 then some Group.C
  else some Group.D

/-- The product selector of the Hyterce calculator (`""` means no result;
we only model the selected case). -/
inductive Product
  | Syrup | Drops
deriving DecidableEq, Repr

/-- Result record of the Hyterce calculator. -/
structure HyterceResult where
  pcpm : ℚ
  slab : String
  rate : ℚ
  incentive : ℚ
deriving DecidableEq, Repr

/-- Core of `hyterce_calculator` (src lines 108-134): PCPM = units/months
guarded against `months = 0`, slab by PCPM thresholds 200/400/600,
per-unit rate by (product, slab), incentive = PCPM × rate. -/
def hyterce_calculator (product : Product) (total_units months : ℕ) : HyterceResult :=
  let pcpm : ℚ := if months ≠ 0 then (total_units : ℚ) / (months : ℚ) else 0
  if pcpm ≥ 200 then
    let slab := if pcpm < 400 then "Slab 1" else if pcpm < 600 then "Slab 2" else "Slab 3"
    let rate : ℚ :=
      match product with
      | Product.Syrup => if slab = "Slab 1" then 4 else if slab = "Slab 2" then 6 else 8
      | Product.Drops => if slab = "Slab 1" then 3 else if slab = "Slab 2" then 4 else 5
    ⟨pcpm, slab, rate, pcpm * rate⟩
  else
    ⟨pcpm, "No Incentive", 0, pcpm * 0⟩

/-- Result record of the MR annual calculator: group (empty when PCPM=0),
multiplier and incentive = salary × multiplier. -/
structure MrAnnualResult where
  group : Option Group
  multiplier : ℚ
  incentive : ℚ
deriving DecidableEq, Repr

/-- Core of `mr_annual_incentive` (src lines 152-205): group via the shared
breakpoints, multiplier by achievement band (≥110, ≥105, else 0) and group,
incentive = salary × multiplier (the source computes it unconditionally). -/
def mr_annual_incentive (pcpm achievement salary : ℚ) : MrAnnualResult :=
  let group := classifyGroup pcpm
  let multiplier : ℚ :=
    if achievement ≥ 110 then
      match group with
      | some Group.A => 1
      | some Group.B => 11/10
      | some Group.C => 5/4
      | some Group.D => 3/2
      | none => 0
    else if achievement ≥ 105 then
      match group with
      | some Group.A => 3/4
      | some Group.B => 4/5
      | some Group.C => 9/10
      | some Group.D => 1
      | none => 0
    else 0
  ⟨group, multiplier, salary * multiplier⟩

/-- The period selector of the MR volume calculator. -/
inductive Period
  | Quarter | Annual
deriving DecidableEq, Repr

/-- The nested helper `lookup_rate` of `mr_volume_incentive` (src lines
246-277): rate in percent by achievement band (≥110, ≥105, ≥100, ≥95,
else 0) and group. -/
def lookup_rate (ach : ℚ) (grp : Group) : ℚ :=
  if ach ≥ 110 then
    match grp with
    | Group.A => 3/4
    | Group.B => 9/10
    | Group.C => 1
    | Group.D => 6/5
  else if ach ≥ 105 then
    match grp with
    | Group.A => 62/100
    | Group.B => 7/10
    | Group.C => 87/100
    | Group.D => 1
  else if ach ≥ 100 then
    match grp with
    | Group.A => 1/2
    | Group.B => 3/5
    | Group.C => 3/4
    | Group.D => 4/5
  else if ach ≥ 95 then
    match grp with
    | Group.A => 1/4
    | Group.B => 3/10
    | Group.C => 7/20
    | Group.D => 2/5
  else 0

/-- Result record of the MR volume calculator (produced only when a period
is selected and the group is defined). -/
structure MrVolumeResult where
  group : Group
  rate : ℚ
  incentive : ℚ
deriving DecidableEq, Repr

/-- Core of `mr_volume_incentive` (src lines 213-287): a result is shown
only when both a period is selected and the group is nonempty; then
rate = lookup_rate(achievement, group) and incentive = sale × rate / 100. -/
def mr_volume_incentive (period : Option Period) (pcpm achievement sale : ℚ) :
    Option MrVolumeResult :=
  match period, classifyGroup pcpm with
  | some _, some g => some ⟨g, lookup_rate achievement g, sale * lookup_rate achievement g / 100⟩
  | _, _ => none

/-- The flat-amount table `amounts` of `mr_brand_incentive` (src lines
319-324): length-12 lists, index 0..11, one per group. -/
def brand_amounts (g : Group) : List ℕ :=
  match g with
  | Group.A => [0, 1000, 2000, 3000, 4000, 5000, 6000, 7000, 8000, 9000, 10000, 11000]
  | Group.B => [0, 1500, 3000, 4500, 6000, 7500, 9000, 10500, 12000, 13500, 15000, 16500]
  | Group.C => [0, 2000, 4000, 6000, 8000, 10000, 12000, 14000, 16000, 18000, 20000, 22000]
  | Group.D => [0, 2500, 5000, 7500, 10000, 12500, 15000, 17500, 20000, 22500, 25000, 27500]

/-- Core of `mr_brand_incentive` (src lines 295-335): group via the shared
breakpoints; when the group is defined, `incentive = amounts[group][num_groups]`.
The Python list indexing is embedded as `List.get?`, which is `none`
exactly when the source would raise `IndexError`. -/
def mr_brand_incentive (pcpm : ℚ) (num_groups : ℕ) : Option ℕ :=
  match classifyGroup pcpm with
  | some g => (brand_amounts g).get? num_groups
  | none => none

/-- The number-input widget for the Eminent-11 brand-group count declares
`min_value=1, max_value=11` (src lines 300-307): this is the input-boundary
validation for that count. -/
def valid_brand_group_count (n : ℕ) : Prop := 1 ≤ n ∧ n ≤ 11

/-- The flat-amount table `amounts` of `mr_quarterly_brand_incentive`
(src lines 370-375): length-5 lists, index 0..4, one per group. -/
def quarterly_brand_amounts (g : Group) : List ℕ :=
  match g with
  | Group.A => [0, 500, 1000, 1500, 2000]
  | Group.B => [0, 750, 1500, 2250, 3000]
  | Group.C => [0, 1000, 2000, 3000, 4000]
  | Group.D => [0, 1500, 3000, 4500, 6000]

/-- Core of `mr_quarterly_brand_incentive` (src lines 343-384), analogous
to `mr_brand_incentive` with the quarterly table. -/
def mr_quarterly_brand_incentive (pcpm : ℚ) (num_brands : ℕ) : Option ℕ :=
  match classifyGroup pcpm with
  | some g => (quarterly_brand_amounts g).get? num_brands
  | none => none

/-- The number-input widget for the quarterly brand count declares
`min_value=1, max_value=4` (src lines 352-358): this is the input-boundary
validation for that count. -/
def valid_quarterly_brand_count (n : ℕ) : Prop := 1 ≤ n ∧ n ≤ 4

/-- Result record of the generic manager calculator. -/
structure ManagerResult where
  eligible : Bool
  multiplier : ℚ
  incentive : ℚ
deriving DecidableEq, Repr

/-- Core of `manager_incentive` (src lines 392-445), the generic calculator
for the ASM, RSM/BM and ZBM roles: eligible iff `pct_mrs ≥ threshold`;
multiplier = high_multiplier when eligible and achievement ≥ 100, 1 when
eligible and achievement ≥ 95, else 0; when the multiplier is positive,
incentive = (total / num_mrs) × multiplier with the division guarded
against `num_mrs = 0`, else 0. -/
def manager_incentive (threshold high_multiplier : ℚ)
    (achievement total_mr_incentive : ℚ) (num_mrs : ℕ) (pct_mrs : ℚ) : ManagerResult :=
  let eligible := pct_mrs ≥ threshold
  let multiplier : ℚ :=
    if eligible then
      if achievement ≥ 100 then high_multiplier
      else if achievement ≥ 95 then 1
      else 0
    else 0
  let incentive : ℚ :=
    if multiplier > 0 then
      (if num_mrs ≠ 0 then total_mr_incentive / (num_mrs : ℚ) else 0) * multiplier
    else 0
  ⟨eligible, multiplier, incentive⟩

/-- The ASM instantiation from `main` (src line 534): threshold 60,
high multiplier 1.5. -/
def asm_incentive (achievement total_mr_incentive : ℚ) (num_mrs : ℕ) (pct_mrs : ℚ) :
    ManagerResult :=
  manager_incentive 60 (3/2) achievement total_mr_incentive num_mrs pct_mrs

/-- The RSM/BM instantiation from `main` (src line 536): threshold 50,
high multiplier 1.3. -/
def rsm_bm_incentive (achievement total_mr_incentive : ℚ) (num_mrs : ℕ) (pct_mrs : ℚ) :
    ManagerResult :=
  manager_incentive 50 (13/10) achievement total_mr_incentive num_mrs pct_mrs

/-- The ZBM instantiation from `main` (src line 538): threshold 40,
high multiplier 1.2. -/
def zbm_incentive (achievement total_mr_incentive : ℚ) (num_mrs : ℕ) (pct_mrs : ℚ) :
    ManagerResult :=
  manager_incentive 40 (6/5) achievement total_mr_incentive num_mrs pct_mrs

/-- The incremental-units computation of `resplash_incentive` (src line
470): `current - base` when `current > base`, else 0. -/
def incremental_units (base_units current_units : ℕ) : ℕ :=
  if current_units > base_units then current_units - base_units else 0

/-- Result record of the Resplash calculator. -/
structure ResplashResult where
  incremental : ℕ
  slab : String
  rate : ℚ
  precision_incentive : ℚ
  excellence_eligible : Bool
deriving DecidableEq, Repr

/-- Core of `resplash_incentive` (src lines 454-507): a result only when
incremental units are positive; slab and per-unit rate by incremental
thresholds 1500/3000/4500/6000; precision incentive = incremental × rate;
excellence eligibility iff incremental ≥ 7500. -/
def resplash_incentive (base_units current_units : ℕ) : Option ResplashResult :=
  let inc := incremental_units base_units current_units
  if inc > 0 then
    let sr : String × ℚ :=
      if inc < 1500 then ("No Incentive", 0)
      else if inc < 3000 then ("Aspire", 3/4)
      else if inc < 4500 then ("Eminence", 1)
      else if inc < 6000 then ("Pinnacle", 5/4)
      else ("Summit", 3/2)
    some ⟨inc, sr.1, sr.2, (inc : ℚ) * sr.2, decide (inc ≥ 7500)⟩
  else none

/-- C2: for every non-negative PCPM `p` the group classifier returns exactly
one of A, B, C, D or undefined (`none`): undefined when `p = 0`, A on
`(0, 1.5)`, B on `[1.5, 2.5)`, C on `[2.5, 4)`, D on `[4, ∞)`; in particular
`p = 1.5` yields B and `p = 4` yields D. -/
theorem classifyGroup_spec (p : ℚ) (hp : 0 ≤ p) :
    (p = 0 → classifyGroup p = none) ∧
    (0 < p → p < 3/2 → classifyGroup p = some Group.A) ∧
    (3/2 ≤ p → p < 5/2 → classifyGroup p = some Group.B) ∧
    (5/2 ≤ p → p < 4 → classifyGroup p = some Group.C) ∧
    (4 ≤ p → classifyGroup p = some Group.D) ∧
    classifyGroup (3/2) = some Group.B ∧
    classifyGroup 4 = some Group.D := by
  refine ⟨?_, ?_, ?_, ?_, ?_, by norm_num [classifyGroup], by norm_num [classifyGroup]⟩ <;>
    intros <;> unfold classifyGroup <;>
    split_ifs <;> first | rfl | (exfalso; linarith)

/-- Witness for `classifyGroup_spec` at `p = 3/2`. -/
theorem classifyGroup_spec_witness :
    classifyGroup (3/2) = some Group.B :=
  (classifyGroup_spec (3/2) (by norm_num)).2.2.1 (by norm_num) (by norm_num)

/-- C1: in the Eminent-11 brand rule and the quarterly brand rule, for every
defined group and every count passing the input-boundary validation of its
number-input widget (1..11 resp. 1..4), the flat-amount table lookup is in
bounds (the `List.get?` embedding of the Python indexing returns a value). -/
theorem brand_lookup_in_bounds (p : ℚ) (n : ℕ) (g : Group)
    (hg : classifyGroup p = some g) :
    (valid_brand_group_count n → (mr_brand_incentive p n).isSome) ∧
    (valid_quarterly_brand_count n → (mr_quarterly_brand_incentive p n).isSome) := by
  constructor
  · rintro ⟨h1, h11⟩
    have hlen : n < (brand_amounts g).length := by
      cases g <;> simp only [brand_amounts, List.length] <;> omega
    simp [mr_brand_incentive, hg, List.getElem?_eq_getElem hlen]
  · rintro ⟨h1, h4⟩
    have hlen : n < (quarterly_brand_amounts g).length := by
      cases g <;> simp only [quarterly_brand_amounts, List.length] <;> omega
    simp [mr_quarterly_brand_incentive, hg, List.getElem?_eq_getElem hlen]

/-- Witness for `brand_lookup_in_bounds` at `p = 1`, `n = 4` (Group A). -/
theorem brand_lookup_in_bounds_witness :
    (mr_brand_incentive 1 4).isSome ∧ (mr_quarterly_brand_incentive 1 4).isSome :=
  ⟨(brand_lookup_in_bounds 1 4 Group.A (by norm_num [classifyGroup])).1
      ⟨by norm_num, by norm_num⟩,
   (brand_lookup_in_bounds 1 4 Group.A (by norm_num [classifyGroup])).2
      ⟨by norm_num, by norm_num⟩⟩

/-- C3: for every product, non-negative units and months in 1..3, the
Hyterce rule computes PCPM = units / months; PCPM < 200 gives slab
"No Incentive" with rate 0, [200,400) Slab 1, [400,600) Slab 2, ≥600
Slab 3, with per-unit rate 4/6/8 for Syrup and 3/4/5 for Drops; the
incentive is PCPM × rate; and 2100 Syrup units over 3 months give
PCPM 700, Slab 3, rate 8, incentive 5600. -/
theorem hyterce_spec (prod : Product) (units months : ℕ)
    (hm1 : 1 ≤ months) (hm3 : months ≤ 3) :
    (hyterce_calculator prod units months).pcpm = (units : ℚ) / months ∧
    ((units : ℚ) / months < 200 →
      (hyterce_calculator prod units months).slab = "No Incentive" ∧
      (hyterce_calculator prod units months).rate = 0) ∧
    (200 ≤ (units : ℚ) / months → (units : ℚ) / months < 400 →
      (hyterce_calculator prod units months).slab = "Slab 1" ∧
      (hyterce_calculator prod units months).rate =
        (match prod with | Product.Syrup => 4 | Product.Drops => 3)) ∧
    (400 ≤ (units : ℚ) / months → (units : ℚ) / months < 600 →
      (hyterce_calculator prod units months).slab = "Slab 2" ∧
      (hyterce_calculator prod units months).rate =
        (match prod with | Product.Syrup => 6 | Product.Drops => 4)) ∧
    (600 ≤ (units : ℚ) / months →
      (hyterce_calculator prod units months).slab = "Slab 3" ∧
      (hyterce_calculator prod units months).rate =
        (match prod with | Product.Syrup => 8 | Product.Drops => 5)) ∧
    (hyterce_calculator prod units months).incentive =
      (hyterce_calculator prod units months).pcpm *
        (hyterce_calculator prod units months).rate ∧
    hyterce_calculator Product.Syrup 2100 3 = ⟨700, "Slab 3", 8, 5600⟩ := by
  have hm : months ≠ 0 := by omega
  have hex : hyterce_calculator Product.Syrup 2100 3 = ⟨700, "Slab 3", 8, 5600⟩ := by
    norm_num [hyterce_calculator]
    decide
  refine ⟨?_, ?_, ?_, ?_, ?_, ?_, hex⟩
  · simp only [hyterce_calculator, hm, ne_eq, not_false_eq_true, ite_true]
    split_ifs <;> rfl
  · intro h
    simp only [hyterce_calculator, hm, ne_eq, not_false_eq_true, ite_true]
    split_ifs <;> first | exact ⟨rfl, rfl⟩ | (exfalso; first | linarith | simp_all)
  · intro h2 h4
    simp only [hyterce_calculator, hm, ne_eq, not_false_eq_true, ite_true]
    cases prod <;> split_ifs <;>
      first | exact ⟨rfl, rfl⟩ | (exfalso; first | linarith | simp_all)
  · intro h4 h6
    simp only [hyterce_calculator, hm, ne_eq, not_false_eq_true, ite_true]
    cases prod <;> split_ifs <;>
      first | exact ⟨rfl, rfl⟩ | (exfalso; first | linarith | simp_all)
  · intro h6
    simp only [hyterce_calculator, hm, ne_eq, not_false_eq_true, ite_true]
    cases prod <;> split_ifs <;>
      first | exact ⟨rfl, rfl⟩ | (exfalso; first | linarith | simp_all)
  · simp only [hyterce_calculator, hm, ne_eq, not_false_eq_true, ite_true]
    split_ifs <;> rfl

/-- Witness for `hyterce_spec` at Syrup, 2100 units, 3 months. -/
theorem hyterce_spec_witness :
    hyterce_calculator Product.Syrup 2100 3 = ⟨700, "Slab 3", 8, 5600⟩ :=
  (hyterce_spec Product.Syrup 2100 3 (by norm_num) (by norm_num)).2.2.2.2.2.2

/-- C4: for every PCPM > 0, achievement and salary, the MR annual rule
returns incentive = salary × multiplier, where the multiplier is 0 below
achievement 105, and otherwise comes from the band/group table
(≥110: A=1, B=1.1, C=1.25, D=1.5; [105,110): A=0.75, B=0.8, C=0.9, D=1);
PCPM 1.2 with achievement 112 and salary 50000 gives group A, multiplier 1
and incentive 50000, while achievement 104 gives multiplier 0, incentive 0. -/
theorem mr_annual_spec (pcpm ach salary : ℚ) (hp : 0 < pcpm) :
    (mr_annual_incentive pcpm ach salary).incentive
      = salary * (mr_annual_incentive pcpm ach salary).multiplier ∧
    (ach < 105 → (mr_annual_incentive pcpm ach salary).multiplier = 0) ∧
    (110 ≤ ach →
      (pcpm < 3/2 → (mr_annual_incentive pcpm ach salary).multiplier = 1) ∧
      (3/2 ≤ pcpm → pcpm < 5/2 →
        (mr_annual_incentive pcpm ach salary).multiplier = 11/10) ∧
      (5/2 ≤ pcpm → pcpm < 4 →
        (mr_annual_incentive pcpm ach salary).multiplier = 5/4) ∧
      (4 ≤ pcpm → (mr_annual_incentive pcpm ach salary).multiplier = 3/2)) ∧
    (105 ≤ ach → ach < 110 →
      (pcpm < 3/2 → (mr_annual_incentive pcpm ach salary).multiplier = 3/4) ∧
      (3/2 ≤ pcpm → pcpm < 5/2 →
        (mr_annual_incentive pcpm ach salary).multiplier = 4/5) ∧
      (5/2 ≤ pcpm → pcpm < 4 →
        (mr_annual_incentive pcpm ach salary).multiplier = 9/10) ∧
      (4 ≤ pcpm → (mr_annual_incentive pcpm ach salary).multiplier = 1)) ∧
    mr_annual_incentive (6/5) 112 50000 = ⟨some Group.A, 1, 50000⟩ ∧
    (mr_annual_incentive (6/5) 104 50000).multiplier = 0 ∧
    (mr_annual_incentive (6/5) 104 50000).incentive = 0 := by
  refine ⟨rfl, ?_, ?_, ?_,
    by norm_num [mr_annual_incentive, classifyGroup],
    by norm_num [mr_annual_incentive, classifyGroup],
    by norm_num [mr_annual_incentive, classifyGroup]⟩
  · intro h
    simp only [mr_annual_incentive, classifyGroup]
    split_ifs <;> first | rfl | (exfalso; linarith)
  · intro h110
    refine ⟨?_, ?_, ?_, ?_⟩ <;> intros <;>
      simp only [mr_annual_incentive, classifyGroup] <;>
      split_ifs <;> first | rfl | (exfalso; linarith)
  · intro h105 h110
    refine ⟨?_, ?_, ?_, ?_⟩ <;> intros <;>
      simp only [mr_annual_incentive, classifyGroup] <;>
      split_ifs <;> first | rfl | (exfalso; linarith)

/-- Witness for `mr_annual_spec` at PCPM 1.2, achievement 112, salary 50000. -/
theorem mr_annual_spec_witness :
    mr_annual_incentive (6/5) 112 50000 = ⟨some Group.A, 1, 50000⟩ :=
  (mr_annual_spec (6/5) 112 50000 (by norm_num)).2.2.2.2.1

/-- The classifier yields a group exactly when PCPM is nonzero. -/
theorem classifyGroup_isSome (p : ℚ) : (classifyGroup p).isSome ↔ p ≠ 0 := by
  unfold classifyGroup
  split_ifs <;> simp_all

/-- C5: the MR volume rule uses the same rate table for both periods;
with non-negative PCPM a result is produced iff a period is selected and
PCPM > 0; every produced result has rate = lookup_rate(achievement, group)
and incentive = sale × rate / 100; the rate table by achievement band and
group is ≥110: 0.75/0.90/1.00/1.20, [105,110): 0.62/0.70/0.87/1.00,
[100,105): 0.50/0.60/0.75/0.80, [95,100): 0.25/0.30/0.35/0.40, <95: 0;
and PCPM 3 (Group C), achievement 101, sale 1000000 give rate 0.75 and
incentive 7500. -/
theorem mr_volume_spec (per : Period) (pcpm ach sale : ℚ) (hp : 0 ≤ pcpm) :
    (∀ per2 : Period, mr_volume_incentive (some per) pcpm ach sale
        = mr_volume_incentive (some per2) pcpm ach sale) ∧
    ((mr_volume_incentive (some per) pcpm ach sale).isSome ↔ 0 < pcpm) ∧
    mr_volume_incentive none pcpm ach sale = none ∧
    (∀ r, mr_volume_incentive (some per) pcpm ach sale = some r →
      r.rate = lookup_rate ach r.group ∧
      r.incentive = sale * lookup_rate ach r.group / 100) ∧
    (110 ≤ ach → lookup_rate ach Group.A = 3/4 ∧ lookup_rate ach Group.B = 9/10 ∧
      lookup_rate ach Group.C = 1 ∧ lookup_rate ach Group.D = 6/5) ∧
    (105 ≤ ach → ach < 110 →
      lookup_rate ach Group.A = 62/100 ∧ lookup_rate ach Group.B = 7/10 ∧
      lookup_rate ach Group.C = 87/100 ∧ lookup_rate ach Group.D = 1) ∧
    (100 ≤ ach → ach < 105 →
      lookup_rate ach Group.A = 1/2 ∧ lookup_rate ach Group.B = 3/5 ∧
      lookup_rate ach Group.C = 3/4 ∧ lookup_rate ach Group.D = 4/5) ∧
    (95 ≤ ach → ach < 100 →
      lookup_rate ach Group.A = 1/4 ∧ lookup_rate ach Group.B = 3/10 ∧
      lookup_rate ach Group.C = 7/20 ∧ lookup_rate ach Group.D = 2/5) ∧
    (ach < 95 → ∀ g, lookup_rate ach g = 0) ∧
    mr_volume_incentive (some per) 3 101 1000000 = some ⟨Group.C, 3/4, 7500⟩ := by
  refine ⟨?_, ?_, rfl, ?_, ?_, ?_, ?_, ?_, ?_, ?_⟩
  · intro per2
    cases h : classifyGroup pcpm <;> simp [mr_volume_incentive, h]
  · have hiff : (mr_volume_incentive (some per) pcpm ach sale).isSome
        = (classifyGroup pcpm).isSome := by
      cases h : classifyGroup pcpm <;> simp [mr_volume_incentive, h]
    rw [hiff, classifyGroup_isSome]
    exact ⟨fun hne => lt_of_le_of_ne hp (Ne.symm hne), fun h => ne_of_gt h⟩
  · intro r h
    cases hg : classifyGroup pcpm with
    | none => simp [mr_volume_incentive, hg] at h
    | some g =>
      simp only [mr_volume_incentive, hg, Option.some.injEq] at h
      subst h
      exact ⟨rfl, rfl⟩
  · intro h
    refine ⟨?_, ?_, ?_, ?_⟩ <;>
      (simp only [lookup_rate]; split_ifs <;> first | rfl | (exfalso; linarith))
  · intro h1 h2
    refine ⟨?_, ?_, ?_, ?_⟩ <;>
      (simp only [lookup_rate]; split_ifs <;> first | rfl | (exfalso; linarith))
  · intro h1 h2
    refine ⟨?_, ?_, ?_, ?_⟩ <;>
      (simp only [lookup_rate]; split_ifs <;> first | rfl | (exfalso; linarith))
  · intro h1 h2
    refine ⟨?_, ?_, ?_, ?_⟩ <;>
      (simp only [lookup_rate]; split_ifs <;> first | rfl | (exfalso; linarith))
  · intro h g
    simp only [lookup_rate]
    split_ifs <;> first | rfl | (exfalso; linarith)
  · norm_num [mr_volume_incentive, classifyGroup, lookup_rate]

/-- Witness for `mr_volume_spec` at Quarter, PCPM 3, achievement 101,
sale 1000000. -/
theorem mr_volume_spec_witness :
    mr_volume_incentive (some Period.Quarter) 3 101 1000000
      = some ⟨Group.C, 3/4, 7500⟩ :=
  (mr_volume_spec Period.Quarter 3 101 1000000 (by norm_num)).2.2.2.2.2.2.2.2.2

/-- C6: for each of the three manager-role instantiations (ASM 60/1.5,
RSM-BM 50/1.3, ZBM 40/1.2) and all inputs with team size ≥ 1: the role is
eligible iff pct_earning ≥ threshold; ineligibility forces amount 0; when
eligible the multiplier is the high multiplier for achievement ≥ 100, 1 on
[95,100), else 0, and the amount is (pool / team_size) × multiplier; for
ASM, pct_earning 59 gives amount 0 regardless of the other inputs, and
pct_earning 65, achievement 100, pool 300000, team 10 give amount 45000. -/
theorem manager_spec (threshold hm ach pool pct : ℚ) (team : ℕ)
    (hrole : (threshold = 60 ∧ hm = 3/2) ∨ (threshold = 50 ∧ hm = 13/10) ∨
      (threshold = 40 ∧ hm = 6/5))
    (hteam : 1 ≤ team) :
    ((manager_incentive threshold hm ach pool team pct).eligible = true ↔
      threshold ≤ pct) ∧
    (pct < threshold → (manager_incentive threshold hm ach pool team pct).incentive = 0) ∧
    (threshold ≤ pct →
      (100 ≤ ach →
        (manager_incentive threshold hm ach pool team pct).multiplier = hm ∧
        (manager_incentive threshold hm ach pool team pct).incentive
          = pool / (team : ℚ) * hm) ∧
      (95 ≤ ach → ach < 100 →
        (manager_incentive threshold hm ach pool team pct).multiplier = 1 ∧
        (manager_incentive threshold hm ach pool team pct).incentive
          = pool / (team : ℚ) * 1) ∧
      (ach < 95 →
        (manager_incentive threshold hm ach pool team pct).multiplier = 0 ∧
        (manager_incentive threshold hm ach pool team pct).incentive = 0)) ∧
    (∀ a p : ℚ, ∀ t : ℕ, (asm_incentive a p t 59).incentive = 0) ∧
    asm_incentive 100 300000 10 65 = ⟨true, 3/2, 45000⟩ ∧
    (∀ a p q : ℚ, ∀ t : ℕ,
      asm_incentive a p t q = manager_incentive 60 (3/2) a p t q ∧
      rsm_bm_incentive a p t q = manager_incentive 50 (13/10) a p t q ∧
      zbm_incentive a p t q = manager_incentive 40 (6/5) a p t q) := by
  have hmpos : 0 < hm := by rcases hrole with ⟨_, h⟩ | ⟨_, h⟩ | ⟨_, h⟩ <;> rw [h] <;> norm_num
  have hteam0 : team ≠ 0 := by omega
  refine ⟨?_, ?_, ?_, ?_, ?_, fun a p q t => ⟨rfl, rfl, rfl⟩⟩
  · simp [manager_incentive, ge_iff_le]
  · intro h
    have he : ¬ (pct ≥ threshold) := not_le.mpr h
    simp [manager_incentive, he]
  · intro hpe
    have he : pct ≥ threshold := hpe
    refine ⟨fun h100 => ?_, fun h95 h100 => ?_, fun h95 => ?_⟩
    · simp [manager_incentive, he, h100, hteam0, hmpos]
    · have hn : ¬ (100 ≤ ach) := not_le.mpr h100
      simp [manager_incentive, he, hn, h95, hteam0]
    · have hn : ¬ (100 ≤ ach) := by linarith
      have hn95 : ¬ (95 ≤ ach) := not_le.mpr h95
      simp [manager_incentive, he, hn, hn95]
  · intro a p t
    have he : ¬ ((59 : ℚ) ≥ 60) := by norm_num
    simp [asm_incentive, manager_incentive, he]
  · norm_num [asm_incentive, manager_incentive]

/-- Witness for `manager_spec` at the ASM parameters with team 10. -/
theorem manager_spec_witness :
    asm_incentive 100 300000 10 65 = ⟨true, 3/2, 45000⟩ :=
  (manager_spec 60 (3/2) 100 300000 65 10 (Or.inl ⟨rfl, rfl⟩)
    (by norm_num)).2.2.2.2.1

/-- C7: the Resplash rule computes incremental = max(current − base, 0);
zero incremental produces no result and positive incremental produces one;
the slab/rate by incremental is <1500 "No Incentive"/0, [1500,3000)
Aspire/0.75, [3000,4500) Eminence/1, [4500,6000) Pinnacle/1.25, ≥6000
Summit/1.5; the precision amount is incremental × rate and excellence
eligibility is exactly incremental ≥ 7500; base 1000 and current 3200 give
incremental 2200, Aspire, rate 0.75, amount 1650, not excellence-eligible. -/
theorem resplash_spec (base current : ℕ) :
    ((incremental_units base current : ℤ) = max ((current : ℤ) - (base : ℤ)) 0) ∧
    (incremental_units base current = 0 → resplash_incentive base current = none) ∧
    (0 < incremental_units base current → (resplash_incentive base current).isSome) ∧
    (0 < incremental_units base current → incremental_units base current < 1500 →
      resplash_incentive base current = some ⟨incremental_units base current,
        "No Incentive", 0, (incremental_units base current : ℚ) * 0, false⟩) ∧
    (1500 ≤ incremental_units base current → incremental_units base current < 3000 →
      resplash_incentive base current = some ⟨incremental_units base current,
        "Aspire", 3/4, (incremental_units base current : ℚ) * (3/4), false⟩) ∧
    (3000 ≤ incremental_units base current → incremental_units base current < 4500 →
      resplash_incentive base current = some ⟨incremental_units base current,
        "Eminence", 1, (incremental_units base current : ℚ) * 1, false⟩) ∧
    (4500 ≤ incremental_units base current → incremental_units base current < 6000 →
      resplash_incentive base current = some ⟨incremental_units base current,
        "Pinnacle", 5/4, (incremental_units base current : ℚ) * (5/4), false⟩) ∧
    (6000 ≤ incremental_units base current →
      resplash_incentive base current = some ⟨incremental_units base current,
        "Summit", 3/2, (incremental_units base current : ℚ) * (3/2),
        decide (7500 ≤ incremental_units base current)⟩) ∧
    resplash_incentive 1000 3200 = some ⟨2200, "Aspire", 3/4, 1650, false⟩ := by
  refine ⟨?_, ?_, ?_, ?_, ?_, ?_, ?_, ?_, ?_⟩
  · unfold incremental_units
    split_ifs with h <;> omega
  · intro h
    simp [resplash_incentive, h]
  · intro h
    simp only [resplash_incentive]
    split_ifs <;> simp_all
  · intro hlo hhi
    simp only [resplash_incentive]
    split_ifs <;>
      first
        | (exfalso; omega)
        | (simp [ge_iff_le, decide_eq_false_iff_not]; omega)
        | simp [ge_iff_le]
  · intro hlo hhi
    simp only [resplash_incentive]
    split_ifs <;>
      first
        | (exfalso; omega)
        | (simp [ge_iff_le, decide_eq_false_iff_not]; omega)
        | simp [ge_iff_le]
  · intro hlo hhi
    simp only [resplash_incentive]
    split_ifs <;>
      first
        | (exfalso; omega)
        | (simp [ge_iff_le, decide_eq_false_iff_not]; omega)
        | simp [ge_iff_le]
  · intro hlo hhi
    simp only [resplash_incentive]
    split_ifs <;>
      first
        | (exfalso; omega)
        | (simp [ge_iff_le, decide_eq_false_iff_not]; omega)
        | simp [ge_iff_le]
  · intro hlo
    simp only [resplash_incentive]
    split_ifs <;>
      first
        | (exfalso; omega)
        | (simp [ge_iff_le, decide_eq_false_iff_not]; omega)
        | simp [ge_iff_le]
  · norm_num [resplash_incentive, incremental_units]

/-- Witness for `resplash_spec` at base 1000, current 3200 (Aspire case). -/
theorem resplash_spec_witness :
    resplash_incentive 1000 3200 = some ⟨incremental_units 1000 3200, "Aspire", 3/4,
      (incremental_units 1000 3200 : ℚ) * (3/4), false⟩ :=
  (resplash_spec 1000 3200).2.2.2.2.1 (by decide) (by decide)

/-- C8: the two divisions are guarded: with months = 0 the Hyterce rule
yields PCPM 0 (hence rate 0 and incentive 0) instead of failing, and with
team size 0 the manager rule yields incentive 0 instead of failing; both
embeddings are total Lean functions. -/
theorem division_guard_spec (prod : Product) (units : ℕ) (thr hm ach pool pct : ℚ) :
    (hyterce_calculator prod units 0).pcpm = 0 ∧
    (hyterce_calculator prod units 0).rate = 0 ∧
    (hyterce_calculator prod units 0).incentive = 0 ∧
    (manager_incentive thr hm ach pool 0 pct).incentive = 0 := by
  refine ⟨by norm_num [hyterce_calculator], by norm_num [hyterce_calculator],
    by norm_num [hyterce_calculator], ?_⟩
  simp only [manager_incentive]
  split_ifs <;> simp

/-- The Hyterce incentive is always PCPM × rate. -/
theorem hyterce_incentive_eq (prod : Product) (units months : ℕ) :
    (hyterce_calculator prod units months).incentive
      = (hyterce_calculator prod units months).pcpm
          * (hyterce_calculator prod units months).rate := by
  simp only [hyterce_calculator]
  split_ifs <;> rfl

/-- The Hyterce PCPM is the guarded quotient. -/
theorem hyterce_pcpm_eq (prod : Product) (units months : ℕ) :
    (hyterce_calculator prod units months).pcpm
      = if months ≠ 0 then (units : ℚ) / months else 0 := by
  simp only [hyterce_calculator]
  split_ifs <;> rfl

/-- The Hyterce per-unit rate is non-negative. -/
theorem hyterce_rate_nonneg (prod : Product) (units months : ℕ) :
    0 ≤ (hyterce_calculator prod units months).rate := by
  cases prod <;> (simp only [hyterce_calculator]; split_ifs <;> norm_num)

/-- The Hyterce PCPM is non-negative. -/
theorem hyterce_pcpm_nonneg (prod : Product) (units months : ℕ) :
    0 ≤ (hyterce_calculator prod units months).pcpm := by
  rw [hyterce_pcpm_eq]
  split_ifs <;> positivity

/-- Every Hyterce result is one of the four (slab, rate) shapes. -/
theorem hyterce_slab_rate_cases (prod : Product) (u m : ℕ) :
    ((hyterce_calculator prod u m).slab = "No Incentive" ∧
      (hyterce_calculator prod u m).rate = 0) ∨
    ((hyterce_calculator prod u m).slab = "Slab 1" ∧
      (hyterce_calculator prod u m).rate
        = (match prod with | Product.Syrup => 4 | Product.Drops => 3)) ∨
    ((hyterce_calculator prod u m).slab = "Slab 2" ∧
      (hyterce_calculator prod u m).rate
        = (match prod with | Product.Syrup => 6 | Product.Drops => 4)) ∨
    ((hyterce_calculator prod u m).slab = "Slab 3" ∧
      (hyterce_calculator prod u m).rate
        = (match prod with | Product.Syrup => 8 | Product.Drops => 5)) := by
  cases prod <;> (simp only [hyterce_calculator]; split_ifs <;> simp_all)

/-- For a fixed product and month count, equal slabs give equal rates. -/
theorem hyterce_rate_eq_of_slab_eq (prod : Product) (u1 u2 months : ℕ)
    (h : (hyterce_calculator prod u1 months).slab
      = (hyterce_calculator prod u2 months).slab) :
    (hyterce_calculator prod u1 months).rate
      = (hyterce_calculator prod u2 months).rate := by
  rcases hyterce_slab_rate_cases prod u1 months with
    ⟨h1, r1⟩ | ⟨h1, r1⟩ | ⟨h1, r1⟩ | ⟨h1, r1⟩ <;>
  rcases hyterce_slab_rate_cases prod u2 months with
    ⟨h2, r2⟩ | ⟨h2, r2⟩ | ⟨h2, r2⟩ | ⟨h2, r2⟩ <;>
    first
      | (rw [h1, h2] at h; exact absurd h (by decide))
      | (rw [r1, r2])

/-- The MR volume rate table is non-negative. -/
theorem lookup_rate_nonneg (ach : ℚ) (g : Group) :
    0 ≤ lookup_rate ach g := by
  cases g <;> (unfold lookup_rate; split_ifs <;> norm_num)

/-- The MR annual multiplier is non-negative. -/
theorem mr_annual_multiplier_nonneg (pcpm ach salary : ℚ) :
    0 ≤ (mr_annual_incentive pcpm ach salary).multiplier := by
  simp only [mr_annual_incentive, classifyGroup]
  split_ifs <;> norm_num

/-- In a list sorted by `≤`, successful lookups are monotone in the index. -/
theorem list_lookup_mono_of_sorted {l : List ℕ} (hs : List.Sorted (· ≤ ·) l)
    {n1 n2 : ℕ} (h : n1 ≤ n2) {a1 a2 : ℕ}
    (h1 : l.get? n1 = some a1) (h2 : l.get? n2 = some a2) : a1 ≤ a2 := by
  rcases eq_or_lt_of_le h with rfl | hlt
  · rw [h1] at h2
    cases h2
    exact le_rfl
  · rw [List.get?_eq_some] at h1 h2
    obtain ⟨w1, e1⟩ := h1
    obtain ⟨w2, e2⟩ := h2
    subst e1
    subst e2
    exact List.Sorted.rel_get_of_lt hs (Fin.mk_lt_mk.mpr hlt)

/-- Each Eminent-11 flat-amount table is sorted non-decreasingly. -/
theorem brand_amounts_sorted (g : Group) :
    List.Sorted (· ≤ ·) (brand_amounts g) := by
  cases g <;> decide

/-- Each quarterly flat-amount table is sorted non-decreasingly. -/
theorem quarterly_brand_amounts_sorted (g : Group) :
    List.Sorted (· ≤ ·) (quarterly_brand_amounts g) := by
  cases g <;> decide

/-- Every Resplash result is one of the five (slab, rate) shapes. -/
theorem resplash_slab_rate_cases (b c : ℕ) (r : ResplashResult)
    (h : resplash_incentive b c = some r) :
    (r.slab = "No Incentive" ∧ r.rate = 0) ∨ (r.slab = "Aspire" ∧ r.rate = 3/4) ∨
    (r.slab = "Eminence" ∧ r.rate = 1) ∨ (r.slab = "Pinnacle" ∧ r.rate = 5/4) ∨
    (r.slab = "Summit" ∧ r.rate = 3/2) := by
  simp only [resplash_incentive] at h
  by_cases hpos : incremental_units b c > 0
  · rw [if_pos hpos, Option.some.injEq] at h
    subst h
    split_ifs <;> simp
  · rw [if_neg hpos] at h
    cases h

/-- Every Resplash result records the incremental units and pays
incremental × rate. -/
theorem resplash_precision_eq (b c : ℕ) (r : ResplashResult)
    (h : resplash_incentive b c = some r) :
    r.incremental = incremental_units b c ∧
    r.precision_incentive = (r.incremental : ℚ) * r.rate := by
  simp only [resplash_incentive] at h
  by_cases hpos : incremental_units b c > 0
  · rw [if_pos hpos, Option.some.injEq] at h
    subst h
    exact ⟨rfl, rfl⟩
  · rw [if_neg hpos] at h
    cases h

/-- Two Resplash results with the same slab have the same rate. -/
theorem resplash_rate_eq_of_slab_eq (b c1 c2 : ℕ) (r1 r2 : ResplashResult)
    (h1 : resplash_incentive b c1 = some r1)
    (h2 : resplash_incentive b c2 = some r2)
    (hs : r1.slab = r2.slab) : r1.rate = r2.rate := by
  rcases resplash_slab_rate_cases b c1 r1 h1 with
    ⟨e1, f1⟩ | ⟨e1, f1⟩ | ⟨e1, f1⟩ | ⟨e1, f1⟩ | ⟨e1, f1⟩ <;>
  rcases resplash_slab_rate_cases b c2 r2 h2 with
    ⟨e2, f2⟩ | ⟨e2, f2⟩ | ⟨e2, f2⟩ | ⟨e2, f2⟩ | ⟨e2, f2⟩ <;>
    first
      | (rw [e1, e2] at hs; exact absurd hs (by decide))
      | (rw [f1, f2])

/-- Every Resplash rate is non-negative. -/
theorem resplash_rate_nonneg (b c : ℕ) (r : ResplashResult)
    (h : resplash_incentive b c = some r) : 0 ≤ r.rate := by
  rcases resplash_slab_rate_cases b c r h with
    ⟨_, f⟩ | ⟨_, f⟩ | ⟨_, f⟩ | ⟨_, f⟩ | ⟨_, f⟩ <;> rw [f] <;> norm_num

/-- For a fixed base, incremental units are non-decreasing in the current
units. -/
theorem incremental_units_mono (b c1 c2 : ℕ) (h : c1 ≤ c2) :
    incremental_units b c1 ≤ incremental_units b c2 := by
  unfold incremental_units
  split_ifs <;> omega

/-- C9: in every rule, with the group/slab/band-determining parameters held
fixed, the computed amount is non-decreasing in the primary driving
quantity: the Hyterce incentive in the units when both unit counts land in
the same slab, the MR annual incentive in the salary, the MR volume
incentive in the sale, both brand incentives in the brand/group count,
the manager incentive in the pool, and the Resplash precision incentive in
the current units when both land in the same slab. -/
theorem monotonicity_spec (prod : Product) (u1 u2 months team base current1 current2 : ℕ)
    (pcpm ach salary1 salary2 sale1 sale2 pool1 pool2 pct thr hm : ℚ)
    (hu : u1 ≤ u2)
    (hslab : (hyterce_calculator prod u1 months).slab
      = (hyterce_calculator prod u2 months).slab)
    (hsalary : salary1 ≤ salary2)
    (hsale : sale1 ≤ sale2) (hpool : pool1 ≤ pool2)
    (hcur : current1 ≤ current2) :
    (hyterce_calculator prod u1 months).incentive
      ≤ (hyterce_calculator prod u2 months).incentive ∧
    (mr_annual_incentive pcpm ach salary1).incentive
      ≤ (mr_annual_incentive pcpm ach salary2).incentive ∧
    (∀ p r1 r2, mr_volume_incentive (some p) pcpm ach sale1 = some r1 →
      mr_volume_incentive (some p) pcpm ach sale2 = some r2 →
      r1.incentive ≤ r2.incentive) ∧
    (∀ n1 n2 a1 a2, n1 ≤ n2 → mr_brand_incentive pcpm n1 = some a1 →
      mr_brand_incentive pcpm n2 = some a2 → a1 ≤ a2) ∧
    (∀ n1 n2 a1 a2, n1 ≤ n2 → mr_quarterly_brand_incentive pcpm n1 = some a1 →
      mr_quarterly_brand_incentive pcpm n2 = some a2 → a1 ≤ a2) ∧
    (manager_incentive thr hm ach pool1 team pct).incentive
      ≤ (manager_incentive thr hm ach pool2 team pct).incentive ∧
    (∀ r1 r2, resplash_incentive base current1 = some r1 →
      resplash_incentive base current2 = some r2 → r1.slab = r2.slab →
      r1.precision_incentive ≤ r2.precision_incentive) := by
  refine ⟨?_, ?_, ?_, ?_, ?_, ?_, ?_⟩
  · rw [hyterce_incentive_eq, hyterce_incentive_eq,
      hyterce_rate_eq_of_slab_eq prod u1 u2 months hslab]
    apply mul_le_mul_of_nonneg_right ?_ (hyterce_rate_nonneg prod u2 months)
    rw [hyterce_pcpm_eq, hyterce_pcpm_eq]
    split_ifs with hmz
    · exact (div_le_div_right
        (by exact_mod_cast Nat.pos_of_ne_zero hmz)).mpr (by exact_mod_cast hu)
    · exact le_rfl
  · show salary1 * (mr_annual_incentive pcpm ach salary1).multiplier
      ≤ salary2 * (mr_annual_incentive pcpm ach salary1).multiplier
    exact mul_le_mul_of_nonneg_right hsalary (mr_annual_multiplier_nonneg pcpm ach salary1)
  · intro p r1 r2 h1 h2
    cases hg : classifyGroup pcpm with
    | none => simp [mr_volume_incentive, hg] at h1
    | some g =>
      simp only [mr_volume_incentive, hg, Option.some.injEq] at h1 h2
      subst h1
      subst h2
      show sale1 * lookup_rate ach g / 100 ≤ sale2 * lookup_rate ach g / 100
      exact (div_le_div_right (by norm_num)).mpr
        (mul_le_mul_of_nonneg_right hsale (lookup_rate_nonneg ach g))
  · intro n1 n2 a1 a2 h12 h1 h2
    cases hg : classifyGroup pcpm with
    | none => simp [mr_brand_incentive, hg] at h1
    | some g =>
      simp only [mr_brand_incentive, hg] at h1 h2
      exact list_lookup_mono_of_sorted (brand_amounts_sorted g) h12 h1 h2
  · intro n1 n2 a1 a2 h12 h1 h2
    cases hg : classifyGroup pcpm with
    | none => simp [mr_quarterly_brand_incentive, hg] at h1
    | some g =>
      simp only [mr_quarterly_brand_incentive, hg] at h1 h2
      exact list_lookup_mono_of_sorted (quarterly_brand_amounts_sorted g) h12 h1 h2
  · simp only [manager_incentive]
    split_ifs <;>
      first
        | exact le_rfl
        | exact mul_le_mul_of_nonneg_right
            ((div_le_div_right
              (by exact_mod_cast Nat.pos_of_ne_zero (by assumption))).mpr hpool)
            (by linarith)
  · intro r1 r2 h1 h2 hs
    obtain ⟨hi1, hp1⟩ := resplash_precision_eq base current1 r1 h1
    obtain ⟨hi2, hp2⟩ := resplash_precision_eq base current2 r2 h2
    rw [hp1, hp2, resplash_rate_eq_of_slab_eq base current1 current2 r1 r2 h1 h2 hs]
    apply mul_le_mul_of_nonneg_right ?_ (resplash_rate_nonneg base current2 r2 h2)
    rw [hi1, hi2]
    exact_mod_cast incremental_units_mono base current1 current2 hcur

/-- Witness for `monotonicity_spec`: 2100 ≤ 2400 Syrup units over 3 months,
both in Slab 3, give non-decreasing incentives. -/
theorem monotonicity_spec_witness :
    (hyterce_calculator Product.Syrup 2100 3).incentive
      ≤ (hyterce_calculator Product.Syrup 2400 3).incentive :=
  (monotonicity_spec Product.Syrup 2100 2400 3 10 1000 3200 3300
    3 101 50000 60000 1000 2000 1000 2000 65 60 (3/2)
    (by norm_num) (by norm_num [hyterce_calculator]) (by norm_num) (by norm_num)
    (by norm_num) (by norm_num)).1

/-- C10: for non-negative inputs, every rule's rate or multiplier and its
final amount are non-negative: Hyterce rate and incentive, MR annual
multiplier and incentive, MR volume rate and incentive, manager multiplier
and incentive, Resplash rate and precision incentive (the brand rules pay
from tables of naturals, non-negative by type). -/
theorem nonneg_spec (prod : Product) (units months base current team : ℕ)
    (pcpm ach salary sale pool pct thr hm : ℚ) (g : Group)
    (hsalary : 0 ≤ salary) (hsale : 0 ≤ sale) (hpool : 0 ≤ pool) (hhm : 0 ≤ hm) :
    0 ≤ (hyterce_calculator prod units months).rate ∧
    0 ≤ (hyterce_calculator prod units months).incentive ∧
    0 ≤ (mr_annual_incentive pcpm ach salary).multiplier ∧
    0 ≤ (mr_annual_incentive pcpm ach salary).incentive ∧
    0 ≤ lookup_rate ach g ∧
    (∀ p r, mr_volume_incentive (some p) pcpm ach sale = some r →
      0 ≤ r.rate ∧ 0 ≤ r.incentive) ∧
    0 ≤ (manager_incentive thr hm ach pool team pct).multiplier ∧
    0 ≤ (manager_incentive thr hm ach pool team pct).incentive ∧
    (∀ r, resplash_incentive base current = some r →
      0 ≤ r.rate ∧ 0 ≤ r.precision_incentive) := by
  refine ⟨hyterce_rate_nonneg prod units months, ?_,
    mr_annual_multiplier_nonneg pcpm ach salary, ?_,
    lookup_rate_nonneg ach g, ?_, ?_, ?_, ?_⟩
  · rw [hyterce_incentive_eq]
    exact mul_nonneg (hyterce_pcpm_nonneg prod units months)
      (hyterce_rate_nonneg prod units months)
  · show 0 ≤ salary * (mr_annual_incentive pcpm ach salary).multiplier
    exact mul_nonneg hsalary (mr_annual_multiplier_nonneg pcpm ach salary)
  · intro p r h
    cases hg : classifyGroup pcpm with
    | none => simp [mr_volume_incentive, hg] at h
    | some g2 =>
      simp only [mr_volume_incentive, hg, Option.some.injEq] at h
      subst h
      refine ⟨lookup_rate_nonneg ach g2, ?_⟩
      show 0 ≤ sale * lookup_rate ach g2 / 100
      exact div_nonneg (mul_nonneg hsale (lookup_rate_nonneg ach g2)) (by norm_num)
  · simp only [manager_incentive]
    split_ifs <;> first | exact hhm | norm_num
  · simp only [manager_incentive]
    split_ifs <;>
      first
        | exact le_rfl
        | exact mul_nonneg (div_nonneg hpool (by positivity)) hhm
        | exact mul_nonneg (div_nonneg hpool (by positivity)) (by norm_num)
        | exact mul_nonneg le_rfl hhm
        | (rw [zero_mul])
        | norm_num
  · intro r h
    simp only [resplash_incentive] at h
    by_cases hpos : incremental_units base current > 0
    · rw [if_pos hpos, Option.some.injEq] at h
      subst h
      constructor
      · split_ifs <;> norm_num
      · split_ifs <;> (try norm_num) <;> positivity
    · rw [if_neg hpos] at h
      cases h

/-- Witness for `nonneg_spec` at concrete non-negative inputs. -/
theorem nonneg_spec_witness :
    0 ≤ (mr_annual_incentive (6/5) 112 50000).incentive :=
  (nonneg_spec Product.Syrup 2100 3 1000 3200 10 (6/5) 112 50000 1000000 300000 65 60
    (3/2) Group.C (by norm_num) (by norm_num) (by norm_num) (by norm_num)).2.2.2.1

end IncentiveApp
